import Mathlib

/-!
Verification development for the aws-agent repository (src/my_tools.py and
src/app.py). The Python tool functions are shallowly embedded: provider
calls (CloudFormation, S3, Bedrock) become explicit oracle values or a
state record, exceptions become Except, and JSON-like payloads become an
inductive Json type. Each definition mirrors the corresponding Python
function; doc comments cite the source lines.
-/

set_option autoImplicit false
set_option linter.unusedVariables false

namespace AwsAgent

/-- JSON-like values carried by the Bedrock response stream and documents.
Python dicts are modelled as association lists in insertion order. -/
inductive Json where
  | null : Json
  | bool (b : Bool) : Json
  | num (n : Int) : Json
  | str (s : String) : Json
  | arr (xs : List Json) : Json
  | obj (fields : List (String × Json)) : Json

/-- A Python dict with string keys, in insertion order. -/
abbrev Dict := List (String × Json)

/-- Python dict lookup: the key occurs at most once in a well-formed dict,
so first match is the value. -/
def dictGet : Dict → String → Option Json
  | [], _ => none
  | (k, v) :: rest, key => if k = key then some v else dictGet rest key

/-- Python dict assignment d[k] = v: replace the first binding of k in
place, or append a fresh binding at the end (insertion order). -/
def dictSet : Dict → String → Json → Dict
  | [], key, v => [(key, v)]
  | (k, w) :: rest, key, v =>
      if k = key then (key, v) :: rest else (k, w) :: dictSet rest key v

/-- Python dict.update(other): assign every binding of other in order. -/
def dictUpdate (m : Dict) (other : Dict) : Dict :=
  other.foldl (fun acc kv => dictSet acc kv.1 kv.2) m

/-- my_tools.py lines 161-166: fold dict.update over the streamed events,
starting from the empty aggregate. -/
def aggregateEvents (events : List Dict) : Dict :=
  events.foldl dictUpdate []

/-- Result record built by invoke_bedrock_flow (my_tools.py lines 179-187).
completion_reason and output_document are Python None when no suitable
event arrived. -/
structure FlowInvokeResult where
  flow_id : String
  flow_alias_id : String
  node_name : String
  node_output_name : String
  completion_reason : Option Json
  output_document : Option Json
  raw_events : List Dict

/-- The single-input request envelope built by invoke_bedrock_flow
(my_tools.py lines 145-157). -/
structure FlowInvokeRequest where
  flowIdentifier : String
  flowAliasIdentifier : String
  inputContentDocument : Json
  inputNodeName : String
  inputNodeOutputName : String

/-- my_tools.py lines 145-157: the request carries exactly one input slot
with the caller-supplied document verbatim. -/
def buildFlowRequest (flow_id flow_alias_id node_name node_output_name : String)
    (document : Json) : FlowInvokeRequest :=
  { flowIdentifier := flow_id
    flowAliasIdentifier := flow_alias_id
    inputContentDocument := document
    inputNodeName := node_name
    inputNodeOutputName := node_output_name }

/-- my_tools.py lines 175-177: flow_output.get("content", \x7b\x7d).get("document").
When the aggregated flowOutputEvent is a dict whose "content" value is
present but itself not a dict, the second .get raises AttributeError. -/
def extractOutputDocument (aggregated : Dict) : Except String (Option Json) :=
  match dictGet aggregated "flowOutputEvent" with
  | some (Json.obj fo) =>
      match dictGet fo "content" with
      | none => Except.ok none
      | some (Json.obj c) => Except.ok (dictGet c "document")
      | some _ => Except.error "AttributeError"
  | _ => Except.ok none

/-- my_tools.py lines 171-173: completionReason from the aggregated
flowCompletionEvent when that value is a dict, else Python None. -/
def extractCompletionReason (aggregated : Dict) : Option Json :=
  match dictGet aggregated "flowCompletionEvent" with
  | some (Json.obj fc) => dictGet fc "completionReason"
  | _ => none

/-- invoke_bedrock_flow (my_tools.py lines 128-189) after the provider call:
the response stream is consumed in arrival order, each event is appended to
raw_events and merged into the aggregate, then the two optional fields are
extracted. An AttributeError from the extraction propagates. -/
def invoke_bedrock_flow (flow_id flow_alias_id node_name node_output_name : String)
    (document : Json) (responseStream : List Dict) : Except String FlowInvokeResult :=
  let _request := buildFlowRequest flow_id flow_alias_id node_name node_output_name document
  let raw_events := responseStream
  let aggregated := aggregateEvents responseStream
  let completion_reason := extractCompletionReason aggregated
  match extractOutputDocument aggregated with
  | Except.error e => Except.error e
  | Except.ok output_document =>
      Except.ok
        { flow_id := flow_id
          flow_alias_id := flow_alias_id
          node_name := node_name
          node_output_name := node_output_name
          completion_reason := completion_reason
          output_document := output_document
          raw_events := raw_events }

/-! ## StackDeployer (my_tools.py lines 14-124) -/

/-- my_tools.py lines 14-22. -/
def TERMINAL_STATUSES : List String :=
  ["CREATE_COMPLETE", "CREATE_FAILED", "ROLLBACK_COMPLETE", "ROLLBACK_FAILED",
   "UPDATE_COMPLETE", "UPDATE_ROLLBACK_COMPLETE", "UPDATE_ROLLBACK_FAILED"]

/-- Python str.endswith: the second string is a suffix of the first,
compared character by character. -/
def pyEndsWith (s suffix : String) : Bool :=
  suffix.data.isSuffixOf s.data

/-- my_tools.py line 113: SUCCESS when the terminal status string ends with
COMPLETE, FAILED otherwise. -/
def classifyStatus (final_stack_status : String) : String :=
  if pyEndsWith final_stack_status "COMPLETE" then "SUCCESS" else "FAILED"

/-- Outcome of the existence probe describe_stacks (my_tools.py lines 43-47).
Any botocore ClientError is caught there; isNotFound marks the specific
stack-does-not-exist kind of ClientError. Errors that are not a ClientError
escape the except clause. -/
inductive ProbeResult where
  | found : ProbeResult
  | clientError (isNotFound : Bool) : ProbeResult
  | otherError (msg : String) : ProbeResult
deriving DecidableEq

/-- Outcome the provider gives to a create_stack or update_stack call. -/
inductive CallOutcome where
  | ok (stackId : String) : CallOutcome
  | raises (msg : String) : CallOutcome
deriving DecidableEq

/-- Converted Parameters / Capabilities kwargs (my_tools.py lines 49-59):
each optional collection is included only when truthy (present and
nonempty), parameters as ParameterKey/ParameterValue pairs. -/
structure CfnCallArgs where
  StackName : String
  TemplateBody : String
  Parameters : Option (List (String × String))
  Capabilities : Option (List String)
deriving DecidableEq

/-- my_tools.py lines 49-59. -/
def buildKwargs (stack_name template_body : String)
    (parameters : Option (List (String × String)))
    (capabilities : Option (List String)) : CfnCallArgs :=
  { StackName := stack_name
    TemplateBody := template_body
    Parameters :=
      match parameters with
      | some ps => if ps.isEmpty then none else some ps
      | none => none
    Capabilities :=
      match capabilities with
      | some cs => if cs.isEmpty then none else some cs
      | none => none }

/-- What the pre-poll phase decided: the action string recorded in the
result, the StackId from the provider response, and which provider
operation was issued. -/
structure StartOutcome where
  action : String
  stack_id : String
  issuedCall : String
deriving DecidableEq

/-- my_tools.py lines 42-68: probe existence (absorbing only ClientError),
then issue create_stack or update_stack; a raise from the probe that is
not a ClientError, or from the issued call, propagates. -/
def deployStart (probe : ProbeResult) (createResp updateResp : CallOutcome) :
    Except String StartOutcome :=
  match probe with
  | ProbeResult.otherError msg => Except.error msg
  | ProbeResult.clientError _ =>
      match createResp with
      | CallOutcome.ok sid =>
          Except.ok { action := "CREATE", stack_id := sid, issuedCall := "create_stack" }
      | CallOutcome.raises msg => Except.error msg
  | ProbeResult.found =>
      match updateResp with
      | CallOutcome.ok sid =>
          Except.ok { action := "UPDATE", stack_id := sid, issuedCall := "update_stack" }
      | CallOutcome.raises msg => Except.error msg

/-- A provider datetime, abstracted to its ISO-8601 rendering. -/
structure Timestamp where
  iso : String
deriving DecidableEq

/-- datetime.isoformat(). -/
def Timestamp.isoformat (t : Timestamp) : String := t.iso

/-- A raw StackEvents record from describe_stack_events. -/
structure ProviderEvent where
  Timestamp : Timestamp
  ResourceType : String
  LogicalResourceId : String
  ResourceStatus : String
  ResourceStatusReason : Option String
deriving DecidableEq

/-- The per-event record kept in last_events (my_tools.py lines 97-106). -/
structure EventRec where
  timestamp : String
  resource_type : String
  logical_resource_id : String
  resource_status : String
  resource_status_reason : Option String
deriving DecidableEq

/-- my_tools.py lines 97-106. -/
def mapEvent (e : ProviderEvent) : EventRec :=
  { timestamp := e.Timestamp.isoformat
    resource_type := e.ResourceType
    logical_resource_id := e.LogicalResourceId
    resource_status := e.ResourceStatus
    resource_status_reason := e.ResourceStatusReason }

/-- Outcome of the in-loop describe_stacks call (my_tools.py lines 89-92). -/
inductive DescribeOutcome where
  | ok (status : String) (reason : Option String) : DescribeOutcome
  | raises (msg : String) : DescribeOutcome
deriving DecidableEq

/-- Outcome of the in-loop describe_stack_events call (my_tools.py line 95). -/
inductive EventsOutcome where
  | ok (events : List ProviderEvent) : EventsOutcome
  | raises (msg : String) : EventsOutcome
deriving DecidableEq

/-- One iteration of the poll loop as the provider serves it: the elapsed
wall-clock seconds time.time() - start reads at the top-of-loop check, then
the two describe responses. The sleep between iterations is subsumed by
the elapsed reading of the next step. -/
structure PollStep where
  elapsedAtCheck : Nat
  describe : DescribeOutcome
  events : EventsOutcome
deriving DecidableEq

/-- The JSON result object of deploy_bedrock_flow_stack
(my_tools.py lines 76-87 and 115-124). -/
structure DeployResult where
  status : String
  stack_name : String
  stack_id : String
  final_stack_status : Option String
  status_reason : Option String
  last_events : List EventRec
  action : String
deriving DecidableEq

/-- my_tools.py lines 74-111: the poll loop, driven by the finite trace of
provider responses. Accumulators mirror last_events, status_reason and
final_stack_status (initialised [], None, None at lines 70-72). Returns
ok none when the trace is exhausted with the loop still running, and
error when an uncaught provider raise escapes. -/
def pollLoop (stack_name stack_id action : String) (timeout_seconds : Nat)
    (last_events : List EventRec) (status_reason : Option String)
    (final_stack_status : Option String) :
    List PollStep → Except String (Option DeployResult)
  | [] => Except.ok none
  | step :: rest =>
    if step.elapsedAtCheck > timeout_seconds then
      Except.ok (some
        { status := "TIMEOUT"
          stack_name := stack_name
          stack_id := stack_id
          final_stack_status := final_stack_status
          status_reason := some ("Timed out after " ++ toString timeout_seconds ++ " seconds")
          last_events := last_events
          action := action })
    else
      match step.describe with
      | DescribeOutcome.raises msg => Except.error msg
      | DescribeOutcome.ok st reason =>
          match step.events with
          | EventsOutcome.raises msg => Except.error msg
          | EventsOutcome.ok evs =>
              let le := (evs.take 10).map mapEvent
              if st ∈ TERMINAL_STATUSES then
                Except.ok (some
                  { status := classifyStatus st
                    stack_name := stack_name
                    stack_id := stack_id
                    final_stack_status := some st
                    status_reason := reason
                    last_events := le
                    action := action })
              else
                pollLoop stack_name stack_id action timeout_seconds le reason (some st) rest

/-- deploy_bedrock_flow_stack (my_tools.py lines 26-124): probe and issue
the create/update, then poll. poll_interval_seconds only spaces the checks,
which the trace already timestamps, so it does not appear in the result. -/
def deploy_bedrock_flow_stack (stack_name : String) (timeout_seconds : Nat)
    (probe : ProbeResult) (createResp updateResp : CallOutcome)
    (trace : List PollStep) : Except String (Option DeployResult) :=
  match deployStart probe createResp updateResp with
  | Except.error msg => Except.error msg
  | Except.ok so =>
      pollLoop stack_name so.stack_id so.action timeout_seconds [] none none trace

/-- my_tools.py lines 242-412: the embedded default Bedrock Flow
template body. Literal braces and apostrophes of the YAML text are written
with \x7b \x7d \x27 escapes. -/
def get_default_template : String :=
"AWSTemplateFormatVersion: \x272010-09-09\x27
Description: \x27Simple Amazon Bedrock Flow with Input, Prompt, and Output nodes\x27

Parameters:
  FlowName:
    Type: String
    Default: \x27SimpleBedrockFlow\x27
    Description: \x27Name for the Bedrock Flow\x27
  
  FlowDescription:
    Type: String
    Default: \x27A simple flow that processes user input through a prompt and returns the response\x27
    Description: \x27Description for the Bedrock Flow\x27

Resources:
  # IAM Role for Bedrock Flow execution
  BedrockFlowExecutionRole:
    Type: AWS::IAM::Role
    Properties:
      RoleName: !Sub \x27$\x7bFlowName\x7d-ExecutionRole\x27
      AssumeRolePolicyDocument:
        Version: \x272012-10-17\x27
        Statement:
          - Sid: FlowsTrustBedrock
            Effect: Allow
            Principal:
              Service: bedrock.amazonaws.com
            Action: sts:AssumeRole
            Condition:
              StringEquals:
                \x27aws:SourceAccount\x27: !Ref \x27AWS::AccountId\x27
              ArnLike:
                \x27AWS:SourceArn\x27: !Sub \x27arn:aws:bedrock:$\x7bAWS::Region\x7d:$\x7bAWS::AccountId\x7d:flow/*\x27
      Policies:
        - PolicyName: BedrockFlowExecutionPolicy
          PolicyDocument:
            Version: \x272012-10-17\x27
            Statement:
              - Sid: InvokeModel
                Effect: Allow
                Action:
                  - bedrock:InvokeModel
                Resource: 
                  - !Sub \x27arn:aws:bedrock:$\x7bAWS::Region\x7d::foundation-model/amazon.nova-lite-v1:0\x27

  # Simple Bedrock Flow
  SimpleBedrockFlow:
    Type: AWS::Bedrock::Flow
    Properties:
      Name: !Ref FlowName
      Description: !Ref FlowDescription
      ExecutionRoleArn: !GetAtt BedrockFlowExecutionRole.Arn
      Definition:
        Nodes:
          # Input Node - receives user input
          - Type: Input
            Name: FlowInput
            Outputs:
              - Name: document
                Type: Object
          
          # Prompt Node - processes the input through an AI model
          - Type: Prompt
            Name: ProcessInput
            Configuration:
              Prompt:
                SourceConfiguration:
                  Inline:
                    ModelId: global.anthropic.claude-haiku-4-5-20251001-v1:0
                    TemplateType: TEXT
                    InferenceConfiguration:
                      Text:
                        Temperature: 0.7
                        MaxTokens: 2000
                    TemplateConfiguration:
                      Text:
                        Text: |
                          You are a helpful assistant. Please respond to the following input:
                          
                          \x7b\x7buser_input\x7d\x7d
                          
                          Provide a clear, helpful, and concise response.
            Inputs:
              - Name: user_input
                Type: String
                Expression: $.data.input
            Outputs:
              - Name: modelCompletion
                Type: String
          
          # Output Node - returns the final response
          - Type: Output
            Name: FlowOutput
            Inputs:
              - Name: document
                Type: String
                Expression: $.data
        
        Connections:
          # Connection from Input to Prompt Node
          - Name: FlowInput_ProcessInput_user_input
            Source: FlowInput
            Target: ProcessInput
            Type: Data
            Configuration:
              Data:
                SourceOutput: document
                TargetInput: user_input
          
          # Connection from Prompt to Output Node  
          - Name: ProcessInput_FlowOutput
            Source: ProcessInput
            Target: FlowOutput
            Type: Data
            Configuration:
              Data:
                SourceOutput: modelCompletion
                TargetInput: document

  # Flow Version
  FlowVersion:
    Type: AWS::Bedrock::FlowVersion
    Properties:
      FlowArn: !GetAtt SimpleBedrockFlow.Arn
      Description: !Sub \x27Version 1 of $\x7bFlowName\x7d\x27

  # Flow Alias
  FlowAlias:
    Type: AWS::Bedrock::FlowAlias
    Properties:
      FlowArn: !GetAtt SimpleBedrockFlow.Arn
      Name: DRAFT
      Description: \x27Draft alias for the simple flow\x27
      RoutingConfiguration:
        - FlowVersion: !GetAtt FlowVersion.Version

Outputs:
  FlowId:
    Description: \x27ID of the created Bedrock Flow\x27
    Value: !GetAtt SimpleBedrockFlow.Id
    Export:
      Name: !Sub \x27$\x7bAWS::StackName\x7d-FlowId\x27
  
  FlowArn:
    Description: \x27ARN of the created Bedrock Flow\x27
    Value: !GetAtt SimpleBedrockFlow.Arn
    Export:
      Name: !Sub \x27$\x7bAWS::StackName\x7d-FlowArn\x27
  
  FlowAliasArn:
    Description: \x27ARN of the Flow Alias\x27
    Value: !GetAtt FlowAlias.Arn
    Export:
      Name: !Sub \x27$\x7bAWS::StackName\x7d-FlowAliasArn\x27
  
  FlowAliasId:
    Description: \x27ID of the Flow Alias\x27
    Value: !GetAtt FlowAlias.Id
    Export:
      Name: !Sub \x27$\x7bAWS::StackName\x7d-FlowAliasId\x27
  
  ExecutionRoleArn:
    Description: \x27ARN of the execution role\x27
    Value: !GetAtt BedrockFlowExecutionRole.Arn
    Export:
      Name: !Sub \x27$\x7bAWS::StackName\x7d-ExecutionRoleArn\x27
"

/-! ## TemplateRepository (my_tools.py lines 196-533) -/

/-- my_tools.py line 196. -/
def S3_TEMPLATES_BUCKET_PREFIX : String := "bedrock-flow-templates"

/-- my_tools.py line 197. -/
def DEFAULT_TEMPLATE_KEY : String := "simple-bedrock-flow.yaml"

/-- Ambient AWS identity: the STS caller account id and the boto3 session
default region. -/
structure AwsEnv where
  accountId : String
  sessionRegion : Option String
deriving DecidableEq

/-- my_tools.py lines 212-213 and 231-232: the explicit region argument,
else the session region, else "us-east-1". -/
def resolveRegion (env : AwsEnv) (region : Option String) : String :=
  match region with
  | some r => r
  | none =>
      match env.sessionRegion with
      | some r => r
      | none => "us-east-1"

/-- my_tools.py lines 207-216: deterministic bucket name
prefix-account-region. -/
def get_templates_bucket_name (env : AwsEnv) (region : Option String) : String :=
  S3_TEMPLATES_BUCKET_PREFIX ++ "-" ++ env.accountId ++ "-" ++ resolveRegion env region

/-- my_tools.py lines 233-236: a CreateBucketConfiguration LocationConstraint
is supplied exactly when the resolved region is not us-east-1. -/
def createBucketLocationConstraint (env : AwsEnv) (region : Option String) :
    Option String :=
  let reg := resolveRegion env region
  if reg = "us-east-1" then none else some reg

/-- The external object store: the existing bucket names and the stored
objects as (bucket, key, body) triples. -/
structure S3State where
  buckets : List String
  objects : List (String × String × String)
deriving DecidableEq

/-- S3 get_object: the body stored under (bucket, key), if any. -/
def getObj : List (String × String × String) → String → String → Option String
  | [], _, _ => none
  | (b, k, v) :: rest, bucket, key =>
      if b = bucket ∧ k = key then some v else getObj rest bucket key

/-- S3 put_object: overwrite the object in place or append a fresh one
(per-key last-write-wins of the object store). -/
def setObj : List (String × String × String) → String → String → String →
    List (String × String × String)
  | [], bucket, key, body => [(bucket, key, body)]
  | (b, k, v) :: rest, bucket, key, body =>
      if b = bucket ∧ k = key then (bucket, key, body) :: rest
      else (b, k, v) :: setObj rest bucket key body

def S3State.putObject (st : S3State) (bucket key body : String) : S3State :=
  { st with objects := setObj st.objects bucket key body }

/-- All keys of a bucket in storage order. The list_objects_v2 pagination
loop of my_tools.py lines 451-465 concatenates pages until IsTruncated is
false; its net effect is this full key listing, and the MaxKeys=1 emptiness
probe of line 432 is the emptiness of this listing. -/
def S3State.listKeys (st : S3State) (bucket : String) : List String :=
  (st.objects.filter (fun o => o.1 = bucket)).map (fun o => o.2.1)

/-- my_tools.py lines 219-239: head_bucket, and create the bucket when the
probe fails. -/
def ensure_templates_bucket (env : AwsEnv) (region : Option String)
    (st : S3State) : String × S3State :=
  let bucket_name := get_templates_bucket_name env region
  if bucket_name ∈ st.buckets then (bucket_name, st)
  else (bucket_name, { st with buckets := bucket_name :: st.buckets })

/-- my_tools.py lines 423-439: ensure the bucket, and seed the default
template under DEFAULT_TEMPLATE_KEY exactly when the bucket holds no
object. -/
def ensure_default_template_in_bucket (env : AwsEnv) (region : Option String)
    (st : S3State) : String × S3State :=
  let p := ensure_templates_bucket env region st
  if (p.2.listKeys p.1).isEmpty then
    (p.1, p.2.putObject p.1 DEFAULT_TEMPLATE_KEY get_default_template)
  else p

/-- The JSON result of list_s3_templates (my_tools.py lines 467-471). -/
structure ListTemplatesResult where
  bucket : String
  templates : List String
deriving DecidableEq

/-- my_tools.py lines 442-471. -/
def list_s3_templates (env : AwsEnv) (region : Option String) (st : S3State) :
    ListTemplatesResult × S3State :=
  let p := ensure_default_template_in_bucket env region st
  ({ bucket := p.1, templates := p.2.listKeys p.1 }, p.2)

/-- my_tools.py lines 489-491 and 521-523: append ".yaml" exactly when the
name contains no "." character (Python: if "." not in key). -/
def normalizeTemplateKey (template_name : String) : String :=
  if template_name.data.contains (Char.ofNat 46) then template_name
  else template_name ++ ".yaml"

/-- The JSON result of save_template (my_tools.py lines 499-504). -/
structure SaveTemplateResult where
  bucket : String
  key : String
  status : String
deriving DecidableEq

/-- my_tools.py lines 474-504: put_object overwrites unconditionally. The
utf-8 encode of the body and the decode on retrieval cancel, so bodies are
kept as strings. -/
def save_template (env : AwsEnv) (template_name template_body : String)
    (region : Option String) (st : S3State) : SaveTemplateResult × S3State :=
  let p := ensure_templates_bucket env region st
  let key := normalizeTemplateKey template_name
  ({ bucket := p.1, key := key, status := "SAVED" },
   p.2.putObject p.1 key template_body)

/-- The JSON result of get_template (my_tools.py lines 528-533). -/
structure GetTemplateResult where
  bucket : String
  key : String
  template_body : String
deriving DecidableEq

/-- my_tools.py lines 507-533: get_object raises when the object is absent
(NoSuchKey) and that raise propagates. -/
def get_template (env : AwsEnv) (template_name : String) (region : Option String)
    (st : S3State) : Except String (GetTemplateResult × S3State) :=
  let p := ensure_templates_bucket env region st
  let key := normalizeTemplateKey template_name
  match getObj p.2.objects p.1 key with
  | some body => Except.ok ({ bucket := p.1, key := key, template_body := body }, p.2)
  | none => Except.error "NoSuchKey"

/-! ## Module load of app.py -/

/-- The names bound at module level in my_tools.py: the imports of lines
1-6 and the constants and functions defined at lines 7-533. -/
def myToolsModuleNames : List String :=
  ["json", "time", "Dict", "List", "Optional", "Any", "boto3", "tool",
   "get_cfn_client", "TERMINAL_STATUSES", "deploy_bedrock_flow_stack",
   "invoke_bedrock_flow", "S3_TEMPLATES_BUCKET_PREFIX", "DEFAULT_TEMPLATE_KEY",
   "get_s3_client", "get_templates_bucket_name", "ensure_templates_bucket",
   "_get_default_template", "get_default_template",
   "_ensure_default_template_in_bucket", "list_s3_templates",
   "save_template", "get_template"]

/-- The names app.py line 11 imports from my_tools. -/
def appImportsFromMyTools : List String :=
  ["deploy_bedrock_flow_stack", "invoke_bedrock_flow", "get_template",
   "save_template", "list_s3_templates", "get_default_template",
   "delete_bedrock_flow_stack"]

/-- Python from-import: the statement binds its names only when every
imported name is an attribute of the module; otherwise it raises
ImportError. -/
def fromImportSucceeds (moduleNames imported : List String) : Bool :=
  imported.all (fun n => moduleNames.contains n)

/-- Outcome of executing app.py top to bottom: the from-my_tools import at
line 11 runs before the FastAPI app object and every endpoint definition
(lines 352-455), so a failing import aborts the module load. -/
inductive AppModuleLoad where
  | importError : AppModuleLoad
  | loaded : AppModuleLoad
deriving DecidableEq

def appModuleLoad : AppModuleLoad :=
  if fromImportSucceeds myToolsModuleNames appImportsFromMyTools then
    AppModuleLoad.loaded
  else AppModuleLoad.importError

/-! ## Dictionary merge lemmas -/

lemma dictGet_dictSet_same (m : Dict) (k : String) (v : Json) :
    dictGet (dictSet m k v) k = some v := by
  induction m with
  | nil => simp [dictSet, dictGet]
  | cons kv rest ih =>
      obtain ⟨k0, v0⟩ := kv
      by_cases h0 : k0 = k
      · simp [dictSet, h0, dictGet]
      · simp [dictSet, h0, dictGet, ih]

lemma dictGet_dictSet_ne (m : Dict) (k : String) (v : Json) (k' : String)
    (h : k ≠ k') : dictGet (dictSet m k v) k' = dictGet m k' := by
  induction m with
  | nil => simp [dictSet, dictGet, h]
  | cons kv rest ih =>
      obtain ⟨k0, v0⟩ := kv
      by_cases h0 : k0 = k
      · subst h0
        simp [dictSet, dictGet, h]
      · simp [dictSet, h0, dictGet, ih]

lemma dictGet_eq_none_of_not_mem (ev : Dict) (k : String)
    (h : k ∉ ev.map Prod.fst) : dictGet ev k = none := by
  induction ev with
  | nil => simp [dictGet]
  | cons kv rest ih =>
      obtain ⟨k0, v0⟩ := kv
      rw [List.map_cons, List.mem_cons] at h
      push_neg at h
      obtain ⟨h0, h1⟩ := h
      have h2 : k0 ≠ k := fun hq => h0 hq.symm
      simp [dictGet, h2, ih h1]

lemma dictGet_dictUpdate (m ev : Dict) (k : String)
    (hnd : (ev.map Prod.fst).Nodup) :
    dictGet (dictUpdate m ev) k
      = match dictGet ev k with
        | some v => some v
        | none => dictGet m k := by
  induction ev generalizing m with
  | nil => simp [dictUpdate, dictGet]
  | cons kv rest ih =>
      obtain ⟨k0, v0⟩ := kv
      simp only [List.map_cons, List.nodup_cons] at hnd
      have step : dictUpdate m ((k0, v0) :: rest) = dictUpdate (dictSet m k0 v0) rest := by
        simp [dictUpdate]
      rw [step, ih (dictSet m k0 v0) hnd.2]
      by_cases h : k0 = k
      · subst h
        have hr : dictGet rest k0 = none :=
          dictGet_eq_none_of_not_mem rest k0 (by simpa using hnd.1)
        simp [hr, dictGet, dictGet_dictSet_same]
      · cases hrest : dictGet rest k with
        | some v => simp [dictGet, h, hrest]
        | none => simp [dictGet, h, hrest, dictGet_dictSet_ne m k0 v0 k h]

/-! ## Claims C6 and C10: flow invocation -/

/-- Claim C6: invoke_bedrock_flow merges streamed events into an aggregate
with last-write-wins on key collision; a stream with a completion event
whose completionReason is SUCCESS and an output event with nested content
document x=1 yields completion_reason SUCCESS and output_document x=1; a
stream with no such events leaves both fields null. -/
theorem invoke_flow_merge_and_extract (m ev : Dict) (k : String)
    (hnd : (ev.map Prod.fst).Nodup) :
    (dictGet (dictUpdate m ev) k
       = match dictGet ev k with
         | some v => some v
         | none => dictGet m k)
  ∧ invoke_bedrock_flow "flow-1" "alias-1" "FlowInput" "document" Json.null
      [[("flowCompletionEvent", Json.obj [("completionReason", Json.str "SUCCESS")])],
       [("flowOutputEvent", Json.obj
          [("content", Json.obj [("document", Json.obj [("x", Json.num 1)])])])]]
      = Except.ok
        { flow_id := "flow-1", flow_alias_id := "alias-1",
          node_name := "FlowInput", node_output_name := "document",
          completion_reason := some (Json.str "SUCCESS"),
          output_document := some (Json.obj [("x", Json.num 1)]),
          raw_events :=
            [[("flowCompletionEvent", Json.obj [("completionReason", Json.str "SUCCESS")])],
             [("flowOutputEvent", Json.obj
                [("content", Json.obj [("document", Json.obj [("x", Json.num 1)])])])]] }
  ∧ invoke_bedrock_flow "flow-1" "alias-1" "FlowInput" "document" Json.null []
      = Except.ok
        { flow_id := "flow-1", flow_alias_id := "alias-1",
          node_name := "FlowInput", node_output_name := "document",
          completion_reason := none, output_document := none, raw_events := [] } :=
  ⟨dictGet_dictUpdate m ev k hnd, rfl, rfl⟩

/-- Witness for C6 at concrete dictionaries: the colliding key takes the
later value. -/
theorem invoke_flow_merge_and_extract_witness :
    (([(("k" : String), Json.num 3), ("b", Json.num 4)]).map Prod.fst).Nodup
  ∧ dictGet (dictUpdate [("a", Json.num 1), ("k", Json.num 2)]
        [("k", Json.num 3), ("b", Json.num 4)]) "k" = some (Json.num 3) := by
  refine ⟨by decide, ?_⟩
  have h := invoke_flow_merge_and_extract [("a", Json.num 1), ("k", Json.num 2)]
      [("k", Json.num 3), ("b", Json.num 4)] "k" (by decide)
  rw [h.1]
  rfl

/-- The aggregate is safe for the output extraction: the flowOutputEvent
value, when it is a dict with a content key, has a dict content. In exactly
the remaining case the Python chained .get raises AttributeError. -/
def contentSafe (aggregated : Dict) : Bool :=
  match dictGet aggregated "flowOutputEvent" with
  | some (Json.obj fo) =>
      match dictGet fo "content" with
      | some (Json.obj _) => true
      | some _ => false
      | none => true
  | _ => true

/-- The aggregated flowCompletionEvent value is absent or not a mapping. -/
def completionEventNotDict (aggregated : Dict) : Bool :=
  match dictGet aggregated "flowCompletionEvent" with
  | some (Json.obj _) => false
  | _ => true

/-- The aggregated flowOutputEvent is absent, not a mapping, or lacks a
content mapping with a document key. -/
def outputDocumentAbsent (aggregated : Dict) : Bool :=
  match dictGet aggregated "flowOutputEvent" with
  | some (Json.obj fo) =>
      match dictGet fo "content" with
      | some (Json.obj c) => (dictGet c "document").isNone
      | some _ => true
      | none => true
  | _ => true

/-- Counterexample to claim C10: a response stream whose aggregated
flowOutputEvent carries a non-mapping content value makes the extraction
raise (the chained .get of my_tools.py line 177), rather than yield a null
output_document. -/
theorem invoke_flow_extraction_raises_counterexample :
    invoke_bedrock_flow "flow-1" "alias-1" "FlowInput" "document" Json.null
      [[("flowOutputEvent", Json.obj [("content", Json.num 5)])]]
      = Except.error "AttributeError" := rfl

/-- The value the extraction assigns to output_document in the non-raising
cases of my_tools.py line 177. -/
def extractedDoc (agg : Dict) : Option Json :=
  match dictGet agg "flowOutputEvent" with
  | some (Json.obj fo) =>
      match dictGet fo "content" with
      | some (Json.obj c) => dictGet c "document"
      | _ => none
  | _ => none

lemma extractOutputDocument_ok_of_safe (agg : Dict) (h : contentSafe agg = true) :
    extractOutputDocument agg = Except.ok (extractedDoc agg) := by
  cases hout : dictGet agg "flowOutputEvent" with
  | none => simp [extractOutputDocument, extractedDoc, hout]
  | some j =>
      cases j with
      | obj fo =>
          cases hcont : dictGet fo "content" with
          | none => simp [extractOutputDocument, extractedDoc, hout, hcont]
          | some c =>
              cases c with
              | obj cc => simp [extractOutputDocument, extractedDoc, hout, hcont]
              | null => exact absurd h (by simp [contentSafe, hout, hcont])
              | bool b => exact absurd h (by simp [contentSafe, hout, hcont])
              | num n => exact absurd h (by simp [contentSafe, hout, hcont])
              | str s => exact absurd h (by simp [contentSafe, hout, hcont])
              | arr xs => exact absurd h (by simp [contentSafe, hout, hcont])
      | null => simp [extractOutputDocument, extractedDoc, hout]
      | bool b => simp [extractOutputDocument, extractedDoc, hout]
      | num n => simp [extractOutputDocument, extractedDoc, hout]
      | str s => simp [extractOutputDocument, extractedDoc, hout]
      | arr xs => simp [extractOutputDocument, extractedDoc, hout]

lemma extractCompletionReason_none_of_notDict (agg : Dict)
    (hc : completionEventNotDict agg = true) : extractCompletionReason agg = none := by
  unfold completionEventNotDict at hc
  unfold extractCompletionReason
  cases hcomp : dictGet agg "flowCompletionEvent" with
  | none => simp
  | some j =>
      rw [hcomp] at hc
      cases j <;> simp_all

lemma extractedDoc_none_of_absent (agg : Dict) (hsafe : contentSafe agg = true)
    (ha : outputDocumentAbsent agg = true) : extractedDoc agg = none := by
  unfold contentSafe at hsafe
  unfold outputDocumentAbsent at ha
  unfold extractedDoc
  cases hout : dictGet agg "flowOutputEvent" with
  | none => simp [hout]
  | some j =>
      cases j with
      | obj fo =>
          cases hcont : dictGet fo "content" with
          | none => simp [hout, hcont]
          | some c => cases c <;> simp_all
      | null => simp [hout]
      | bool b => simp [hout]
      | num n => simp [hout]
      | str s => simp [hout]
      | arr xs => simp [hout]

/-- Claim C10 as amended: when every content value under the aggregated
flowOutputEvent mapping is itself a mapping (or absent), the extraction
never raises; the result then carries the streamed events verbatim in
arrival order, a null completion_reason when the aggregated
flowCompletionEvent is absent or not a mapping, and a null output_document
when the aggregated flowOutputEvent is absent, not a mapping, or lacks a
content mapping with a document key. -/
theorem invoke_flow_extraction_total_amended
    (fid aid nn non : String) (doc : Json) (events : List Dict)
    (hsafe : contentSafe (aggregateEvents events) = true) :
    ∃ r, invoke_bedrock_flow fid aid nn non doc events = Except.ok r
      ∧ r.raw_events = events
      ∧ (completionEventNotDict (aggregateEvents events) = true →
          r.completion_reason = none)
      ∧ (outputDocumentAbsent (aggregateEvents events) = true →
          r.output_document = none) := by
  refine ⟨{ flow_id := fid, flow_alias_id := aid, node_name := nn,
            node_output_name := non,
            completion_reason := extractCompletionReason (aggregateEvents events),
            output_document := extractedDoc (aggregateEvents events),
            raw_events := events }, ?_, rfl, ?_, ?_⟩
  · simp only [invoke_bedrock_flow]
    rw [extractOutputDocument_ok_of_safe _ hsafe]
  · exact fun hc => extractCompletionReason_none_of_notDict _ hc
  · exact fun ha => extractedDoc_none_of_absent _ hsafe ha

/-- Witness for the amended C10 at a concrete stream with no output event. -/
theorem invoke_flow_extraction_total_amended_witness :
    contentSafe (aggregateEvents [[("flowCompletionEvent", Json.str "done")]]) = true
  ∧ ∃ r, invoke_bedrock_flow "flow-1" "alias-1" "FlowInput" "document" Json.null
        [[("flowCompletionEvent", Json.str "done")]] = Except.ok r
      ∧ r.raw_events = [[("flowCompletionEvent", Json.str "done")]]
      ∧ (completionEventNotDict
           (aggregateEvents [[("flowCompletionEvent", Json.str "done")]]) = true →
          r.completion_reason = none)
      ∧ (outputDocumentAbsent
           (aggregateEvents [[("flowCompletionEvent", Json.str "done")]]) = true →
          r.output_document = none) :=
  ⟨rfl, invoke_flow_extraction_total_amended "flow-1" "alias-1" "FlowInput" "document"
      Json.null [[("flowCompletionEvent", Json.str "done")]] rfl⟩

/-! ## Template repository lemmas -/

lemma get_templates_bucket_name_fst (env : AwsEnv) (region : Option String)
    (st : S3State) :
    (ensure_templates_bucket env region st).1 = get_templates_bucket_name env region := by
  unfold ensure_templates_bucket
  by_cases h : get_templates_bucket_name env region ∈ st.buckets <;> simp [h]

lemma ensure_bucket_mem (env : AwsEnv) (region : Option String) (st : S3State) :
    get_templates_bucket_name env region
      ∈ (ensure_templates_bucket env region st).2.buckets := by
  unfold ensure_templates_bucket
  by_cases h : get_templates_bucket_name env region ∈ st.buckets <;> simp [h]

lemma ensure_bucket_objects (env : AwsEnv) (region : Option String) (st : S3State) :
    (ensure_templates_bucket env region st).2.objects = st.objects := by
  unfold ensure_templates_bucket
  by_cases h : get_templates_bucket_name env region ∈ st.buckets <;> simp [h]

lemma ensure_of_mem (env : AwsEnv) (region : Option String) (st : S3State)
    (h : get_templates_bucket_name env region ∈ st.buckets) :
    ensure_templates_bucket env region st = (get_templates_bucket_name env region, st) := by
  simp [ensure_templates_bucket, h]

lemma getObj_setObj_same (objs : List (String × String × String)) (b k v : String) :
    getObj (setObj objs b k v) b k = some v := by
  induction objs with
  | nil => simp [setObj, getObj]
  | cons o rest ih =>
      obtain ⟨b0, k0, v0⟩ := o
      by_cases h : b0 = b ∧ k0 = k
      · simp [setObj, h, getObj]
      · simp [setObj, h, getObj, ih]

lemma filter_setObj_of_empty (objs : List (String × String × String)) (b k v : String)
    (h : objs.filter (fun o => o.1 = b) = []) :
    (setObj objs b k v).filter (fun o => o.1 = b) = [(b, k, v)] := by
  induction objs with
  | nil => simp [setObj]
  | cons o rest ih =>
      obtain ⟨b0, k0, v0⟩ := o
      by_cases hb : b0 = b
      · exfalso
        simp [List.filter_cons, hb] at h
      · have h2 : rest.filter (fun o => o.1 = b) = [] := by
          simpa [List.filter_cons, hb] using h
        have h3 : ¬(b0 = b ∧ k0 = k) := fun hc => hb hc.1
        simp [setObj, h3, List.filter_cons, hb, ih h2]

/-! ## Claims C7, C8, C9: template repository operations -/

/-- Shared: retrieving a template right after saving it under the same name
returns the exact body just saved into the normalized key. -/
lemma get_after_save (env : AwsEnv) (name body : String) (region : Option String)
    (st : S3State) :
    get_template env name region (save_template env name body region st).2
      = Except.ok
          ({ bucket := get_templates_bucket_name env region,
             key := normalizeTemplateKey name,
             template_body := body },
           (save_template env name body region st).2) := by
  have hfst := get_templates_bucket_name_fst env region st
  have hmem := ensure_bucket_mem env region st
  simp only [save_template, get_template, S3State.putObject]
  rw [hfst]
  rw [ensure_of_mem env region _ (by simpa using hmem)]
  simp [getObj_setObj_same]

/-- Claim C8: for every name and body, save_template followed immediately
by get_template with the same name returns exactly the body just saved
(unconditional overwrite, no merge, no version check). -/
theorem save_then_get_returns_saved_body (env : AwsEnv) (name body : String)
    (region : Option String) (st : S3State) :
    get_template env name region (save_template env name body region st).2
      = Except.ok
          ({ bucket := get_templates_bucket_name env region,
             key := normalizeTemplateKey name,
             template_body := body },
           (save_template env name body region st).2) :=
  get_after_save env name body region st

/-- Claim C9: get_template and save_template append ".yaml" to the name
exactly when it contains no "."; "foo" resolves to key "foo.yaml" and
"foo.json" resolves to key "foo.json". -/
theorem template_name_extension_normalization (env : AwsEnv) (region : Option String)
    (st : S3State) (name body : String) :
    (name.data.contains (Char.ofNat 46) = false →
        (save_template env name body region st).1.key = name ++ ".yaml")
  ∧ (name.data.contains (Char.ofNat 46) = true →
        (save_template env name body region st).1.key = name)
  ∧ get_template env "foo" region (save_template env "foo" body region st).2
      = Except.ok
          ({ bucket := get_templates_bucket_name env region, key := "foo.yaml",
             template_body := body },
           (save_template env "foo" body region st).2)
  ∧ get_template env "foo.json" region (save_template env "foo.json" body region st).2
      = Except.ok
          ({ bucket := get_templates_bucket_name env region, key := "foo.json",
             template_body := body },
           (save_template env "foo.json" body region st).2) := by
  refine ⟨?_, ?_, ?_, ?_⟩
  · intro h
    have h2 : Char.ofNat 46 ∉ name.data := by simpa using h
    simp [save_template, normalizeTemplateKey, h2]
  · intro h
    have h2 : Char.ofNat 46 ∈ name.data := by simpa using h
    simp [save_template, normalizeTemplateKey, h2]
  · exact get_after_save env "foo" body region st
  · exact get_after_save env "foo.json" body region st

/-- Witness for C9 at concrete names with and without an extension. -/
theorem template_name_extension_normalization_witness :
    "bar".data.contains (Char.ofNat 46) = false
  ∧ (save_template ⟨"123456789012", some "us-west-2"⟩ "bar" "body-a" none
        ⟨[], []⟩).1.key = "bar" ++ ".yaml"
  ∧ "foo.json".data.contains (Char.ofNat 46) = true
  ∧ (save_template ⟨"123456789012", some "us-west-2"⟩ "foo.json" "body-a" none
        ⟨[], []⟩).1.key = "foo.json" :=
  ⟨by decide,
   (template_name_extension_normalization ⟨"123456789012", some "us-west-2"⟩ none
      ⟨[], []⟩ "bar" "body-a").1 (by decide),
   by decide,
   (template_name_extension_normalization ⟨"123456789012", some "us-west-2"⟩ none
      ⟨[], []⟩ "foo.json" "body-a").2.1 (by decide)⟩

/-- Claim C7: on a store whose templates bucket holds no object,
list_s3_templates seeds the built-in default template and returns exactly
its key, and the seeded body round-trips byte-for-byte through
get_template. -/
theorem list_templates_seeds_default (env : AwsEnv) (region : Option String)
    (st : S3State)
    (hempty : st.listKeys (get_templates_bucket_name env region) = []) :
    (list_s3_templates env region st).1
      = { bucket := get_templates_bucket_name env region,
          templates := [DEFAULT_TEMPLATE_KEY] }
  ∧ get_template env DEFAULT_TEMPLATE_KEY region (list_s3_templates env region st).2
      = Except.ok
          ({ bucket := get_templates_bucket_name env region,
             key := DEFAULT_TEMPLATE_KEY,
             template_body := get_default_template },
           (list_s3_templates env region st).2) := by
  have hfst := get_templates_bucket_name_fst env region st
  have hobj := ensure_bucket_objects env region st
  have hmem := ensure_bucket_mem env region st
  have hfil : st.objects.filter
      (fun o => o.1 = get_templates_bucket_name env region) = [] := by
    have h := hempty
    unfold S3State.listKeys at h
    simpa using h
  have hempty2 : (ensure_templates_bucket env region st).2.listKeys
      (get_templates_bucket_name env region) = [] := by
    unfold S3State.listKeys
    rw [hobj]
    exact hempty
  have hseed : ensure_default_template_in_bucket env region st
      = (get_templates_bucket_name env region,
         (ensure_templates_bucket env region st).2.putObject
           (get_templates_bucket_name env region) DEFAULT_TEMPLATE_KEY
           get_default_template) := by
    simp only [ensure_default_template_in_bucket]
    rw [hfst, hempty2]
    simp
  have hkeys : ((ensure_templates_bucket env region st).2.putObject
        (get_templates_bucket_name env region) DEFAULT_TEMPLATE_KEY
        get_default_template).listKeys (get_templates_bucket_name env region)
      = [DEFAULT_TEMPLATE_KEY] := by
    unfold S3State.listKeys S3State.putObject
    rw [hobj, filter_setObj_of_empty _ _ _ _ hfil]
    simp
  have hkey : normalizeTemplateKey DEFAULT_TEMPLATE_KEY = DEFAULT_TEMPLATE_KEY := by
    decide
  constructor
  · simp only [list_s3_templates]
    rw [hseed]
    simp [hkeys]
  · simp only [list_s3_templates]
    rw [hseed]
    have hmem2 : get_templates_bucket_name env region
        ∈ ((ensure_templates_bucket env region st).2.putObject
            (get_templates_bucket_name env region) DEFAULT_TEMPLATE_KEY
            get_default_template).buckets := hmem
    simp only [get_template]
    rw [ensure_of_mem env region _ hmem2]
    simp [S3State.putObject, getObj_setObj_same, hkey]

/-- Witness for C7: a fresh store with no buckets and no objects. -/
theorem list_templates_seeds_default_witness :
    (⟨[], []⟩ : S3State).listKeys
        (get_templates_bucket_name ⟨"123456789012", some "us-west-2"⟩ none) = []
  ∧ ((list_s3_templates ⟨"123456789012", some "us-west-2"⟩ none ⟨[], []⟩).1
      = { bucket := get_templates_bucket_name ⟨"123456789012", some "us-west-2"⟩ none,
          templates := [DEFAULT_TEMPLATE_KEY] }
  ∧ get_template ⟨"123456789012", some "us-west-2"⟩ DEFAULT_TEMPLATE_KEY none
        (list_s3_templates ⟨"123456789012", some "us-west-2"⟩ none ⟨[], []⟩).2
      = Except.ok
          ({ bucket := get_templates_bucket_name ⟨"123456789012", some "us-west-2"⟩ none,
             key := DEFAULT_TEMPLATE_KEY,
             template_body := get_default_template },
           (list_s3_templates ⟨"123456789012", some "us-west-2"⟩ none ⟨[], []⟩).2)) :=
  ⟨rfl, list_templates_seeds_default ⟨"123456789012", some "us-west-2"⟩ none ⟨[], []⟩ rfl⟩

/-! ## Poll-loop lemmas and the deploy claims -/

/-- The value of the final_stack_status variable after the loop has
consumed the given steps without breaking. -/
def observedStatus : Option String → List PollStep → Option String
  | fss, [] => fss
  | fss, step :: rest =>
      match step.describe with
      | DescribeOutcome.ok st _ => observedStatus (some st) rest
      | DescribeOutcome.raises _ => observedStatus fss rest

/-- The value of the last_events variable after the loop has consumed the
given steps without breaking. -/
def observedEvents : List EventRec → List PollStep → List EventRec
  | le, [] => le
  | le, step :: rest =>
      match step.events with
      | EventsOutcome.ok evs => observedEvents ((evs.take 10).map mapEvent) rest
      | EventsOutcome.raises _ => observedEvents le rest

/-- A poll step that neither times out, raises, nor observes a terminal
status. -/
def nonTerminalStep (timeout_seconds : Nat) (step : PollStep) : Prop :=
  step.elapsedAtCheck ≤ timeout_seconds
  ∧ (∃ st reason, step.describe = DescribeOutcome.ok st reason
      ∧ st ∉ TERMINAL_STATUSES)
  ∧ (∃ evs, step.events = EventsOutcome.ok evs)

lemma pollLoop_timeout (sn sid act : String) (timeout_seconds : Nat)
    (pre : List PollStep) (step : PollStep) (rest : List PollStep)
    (le : List EventRec) (rsn fss : Option String)
    (hpre : ∀ s ∈ pre, nonTerminalStep timeout_seconds s)
    (hstep : step.elapsedAtCheck > timeout_seconds) :
    pollLoop sn sid act timeout_seconds le rsn fss (pre ++ step :: rest)
      = Except.ok (some
          { status := "TIMEOUT", stack_name := sn, stack_id := sid,
            final_stack_status := observedStatus fss pre,
            status_reason :=
              some ("Timed out after " ++ toString timeout_seconds ++ " seconds"),
            last_events := observedEvents le pre, action := act }) := by
  revert hpre
  induction pre generalizing le rsn fss with
  | nil =>
      intro _
      simp [pollLoop, observedStatus, observedEvents, hstep]
  | cons s pre ih =>
      intro hpre
      obtain ⟨hle, ⟨st, reason, hdesc, hterm⟩, ⟨evs, hevs⟩⟩ :=
        hpre s (List.mem_cons_self s pre)
      have hpre2 : ∀ x ∈ pre, nonTerminalStep timeout_seconds x :=
        fun x hx => hpre x (List.mem_cons_of_mem _ hx)
      have hnotlt : ¬ s.elapsedAtCheck > timeout_seconds := Nat.not_lt.mpr hle
      simp only [List.cons_append, pollLoop, hdesc, hevs, if_neg hnotlt,
        if_neg hterm]
      rw [List.append_eq, ih _ _ _ hpre2]
      simp [observedStatus, observedEvents, hdesc, hevs]

/-- Claim C4: when the elapsed wall-clock reading at a poll check first
exceeds timeout_seconds with no terminal status observed in any earlier
iteration, the deploy returns a TIMEOUT result whose status_reason carries
the configured timeout value and which holds the last observed
final_stack_status and events. -/
theorem deploy_timeout_returns_last_observed (stack_name : String)
    (timeout_seconds : Nat) (probe : ProbeResult)
    (createResp updateResp : CallOutcome) (so : StartOutcome)
    (hstart : deployStart probe createResp updateResp = Except.ok so)
    (pre : List PollStep) (step : PollStep) (rest : List PollStep)
    (hpre : ∀ s ∈ pre, nonTerminalStep timeout_seconds s)
    (hstep : step.elapsedAtCheck > timeout_seconds) :
    deploy_bedrock_flow_stack stack_name timeout_seconds probe createResp updateResp
        (pre ++ step :: rest)
      = Except.ok (some
          { status := "TIMEOUT", stack_name := stack_name, stack_id := so.stack_id,
            final_stack_status := observedStatus none pre,
            status_reason :=
              some ("Timed out after " ++ toString timeout_seconds ++ " seconds"),
            last_events := observedEvents [] pre, action := so.action })
  ∧ ∃ a b, "Timed out after " ++ toString timeout_seconds ++ " seconds"
      = a ++ toString timeout_seconds ++ b := by
  constructor
  · unfold deploy_bedrock_flow_stack
    rw [hstart]
    exact pollLoop_timeout stack_name so.stack_id so.action timeout_seconds
      pre step rest [] none none hpre hstep
  · exact ⟨"Timed out after ", " seconds", rfl⟩

/-- A poll observation of a stack still in progress. -/
def pollStepInProgress : PollStep :=
  { elapsedAtCheck := 5,
    describe := DescribeOutcome.ok "CREATE_IN_PROGRESS" none,
    events := EventsOutcome.ok [] }

/-- A poll check arriving after the 1800 second deadline. -/
def pollStepLate : PollStep :=
  { elapsedAtCheck := 1801,
    describe := DescribeOutcome.ok "CREATE_IN_PROGRESS" none,
    events := EventsOutcome.ok [] }

/-- Witness for C4 at a concrete two-iteration trace. -/
theorem deploy_timeout_returns_last_observed_witness :
    (∀ s ∈ [pollStepInProgress], nonTerminalStep 1800 s)
  ∧ pollStepLate.elapsedAtCheck > 1800
  ∧ (deploy_bedrock_flow_stack "demo" 1800 (ProbeResult.clientError true)
        (CallOutcome.ok "sid-1") (CallOutcome.ok "sid-1")
        ([pollStepInProgress] ++ pollStepLate :: [])
      = Except.ok (some
          { status := "TIMEOUT", stack_name := "demo", stack_id := "sid-1",
            final_stack_status := observedStatus none [pollStepInProgress],
            status_reason :=
              some ("Timed out after " ++ toString (1800 : Nat) ++ " seconds"),
            last_events := observedEvents [] [pollStepInProgress],
            action := "CREATE" })
    ∧ ∃ a b, "Timed out after " ++ toString (1800 : Nat) ++ " seconds"
        = a ++ toString (1800 : Nat) ++ b) := by
  have hpre : ∀ s ∈ [pollStepInProgress], nonTerminalStep 1800 s := by
    intro s hs
    rw [List.mem_singleton] at hs
    subst hs
    exact ⟨by decide, ⟨"CREATE_IN_PROGRESS", none, rfl, by decide⟩, ⟨[], rfl⟩⟩
  exact ⟨hpre, by decide,
    deploy_timeout_returns_last_observed "demo" 1800 (ProbeResult.clientError true)
      (CallOutcome.ok "sid-1") (CallOutcome.ok "sid-1")
      { action := "CREATE", stack_id := "sid-1", issuedCall := "create_stack" } rfl
      [pollStepInProgress] pollStepLate [] hpre (by decide)⟩

/-- Claim C1 (code bug witness): the terminal status ROLLBACK_COMPLETE — a
failed create that was rolled back — is classified by the suffix check of
my_tools.py line 113 as SUCCESS, while CREATE_COMPLETE is also SUCCESS. -/
theorem deploy_rollback_complete_reported_success :
    "ROLLBACK_COMPLETE" ∈ TERMINAL_STATUSES
  ∧ deploy_bedrock_flow_stack "demo" 1800 (ProbeResult.clientError true)
        (CallOutcome.ok "sid-1") (CallOutcome.ok "sid-1")
        [{ elapsedAtCheck := 0,
           describe := DescribeOutcome.ok "ROLLBACK_COMPLETE"
             (some "Resource creation cancelled"),
           events := EventsOutcome.ok [] }]
      = Except.ok (some
          { status := "SUCCESS", stack_name := "demo", stack_id := "sid-1",
            final_stack_status := some "ROLLBACK_COMPLETE",
            status_reason := some "Resource creation cancelled",
            last_events := [], action := "CREATE" })
  ∧ classifyStatus "CREATE_COMPLETE" = "SUCCESS" :=
  ⟨by decide, rfl, rfl⟩

/-- Claim C5: a probe that finds no stack yields action CREATE through
create_stack; a probe that finds the stack yields action UPDATE through
update_stack. The unissued call plays no part in either case. -/
theorem deploy_action_create_or_update (sid sid2 : String) (c u : CallOutcome) :
    deployStart (ProbeResult.clientError true) (CallOutcome.ok sid) u
      = Except.ok { action := "CREATE", stack_id := sid, issuedCall := "create_stack" }
  ∧ deployStart ProbeResult.found c (CallOutcome.ok sid2)
      = Except.ok { action := "UPDATE", stack_id := sid2, issuedCall := "update_stack" } :=
  ⟨rfl, rfl⟩

/-- Counterexample to claim C2: a provider ClientError raised during the
existence probe that is NOT the stack-not-found kind is still absorbed —
the deploy proceeds with action CREATE instead of propagating the error. -/
theorem probe_absorbs_any_client_error_counterexample :
    deployStart (ProbeResult.clientError false) (CallOutcome.ok "sid-a")
        (CallOutcome.ok "sid-b")
      = Except.ok { action := "CREATE", stack_id := "sid-a",
                    issuedCall := "create_stack" } :=
  rfl

/-- Claim C2 as amended: a provider error is locally absorbed iff it is an
instance of the ClientError class raised during the existence probe —
whatever its kind — in which case the deploy proceeds as CREATE; a
non-ClientError probe error, an error from the issued create/update call,
and an error from either in-loop describe call all propagate unmodified,
with no TIMEOUT or FAILED result fabricated. -/
theorem deploy_error_propagation_amended (b : Bool) (msg sid : String)
    (c u : CallOutcome) (sn sid2 act : String) (timeout_seconds : Nat)
    (le : List EventRec) (rsn fss : Option String) (step : PollStep)
    (rest : List PollStep) (st : String) (reason : Option String) :
    deployStart (ProbeResult.clientError b) (CallOutcome.ok sid) u
      = Except.ok { action := "CREATE", stack_id := sid, issuedCall := "create_stack" }
  ∧ deployStart (ProbeResult.clientError b) (CallOutcome.raises msg) u
      = Except.error msg
  ∧ deployStart (ProbeResult.otherError msg) c u = Except.error msg
  ∧ deployStart ProbeResult.found c (CallOutcome.raises msg) = Except.error msg
  ∧ (step.elapsedAtCheck ≤ timeout_seconds →
      step.describe = DescribeOutcome.raises msg →
      pollLoop sn sid2 act timeout_seconds le rsn fss (step :: rest)
        = Except.error msg)
  ∧ (step.elapsedAtCheck ≤ timeout_seconds →
      step.describe = DescribeOutcome.ok st reason →
      step.events = EventsOutcome.raises msg →
      pollLoop sn sid2 act timeout_seconds le rsn fss (step :: rest)
        = Except.error msg) := by
  refine ⟨rfl, rfl, rfl, rfl, ?_, ?_⟩
  · intro hle hdesc
    simp [pollLoop, Nat.not_lt.mpr hle, hdesc]
  · intro hle hdesc hevs
    simp [pollLoop, Nat.not_lt.mpr hle, hdesc, hevs]

/-- A poll iteration whose describe_stacks call raises. -/
def pollStepDescribeRaises : PollStep :=
  { elapsedAtCheck := 5,
    describe := DescribeOutcome.raises "AccessDenied",
    events := EventsOutcome.ok [] }

/-- A poll iteration whose describe_stack_events call raises. -/
def pollStepEventsRaises : PollStep :=
  { elapsedAtCheck := 5,
    describe := DescribeOutcome.ok "CREATE_IN_PROGRESS" none,
    events := EventsOutcome.raises "Throttling" }

/-- Witness for the amended C2 at concrete raising poll iterations. -/
theorem deploy_error_propagation_amended_witness :
    pollStepDescribeRaises.elapsedAtCheck ≤ 1800
  ∧ pollStepDescribeRaises.describe = DescribeOutcome.raises "AccessDenied"
  ∧ pollLoop "demo" "sid-1" "CREATE" 1800 [] none none [pollStepDescribeRaises]
      = Except.error "AccessDenied"
  ∧ pollStepEventsRaises.elapsedAtCheck ≤ 1800
  ∧ pollStepEventsRaises.describe = DescribeOutcome.ok "CREATE_IN_PROGRESS" none
  ∧ pollStepEventsRaises.events = EventsOutcome.raises "Throttling"
  ∧ pollLoop "demo" "sid-1" "CREATE" 1800 [] none none [pollStepEventsRaises]
      = Except.error "Throttling" := by
  refine ⟨by decide, rfl, ?_, by decide, rfl, rfl, ?_⟩
  · exact (deploy_error_propagation_amended false "AccessDenied" "s"
      (CallOutcome.ok "s") (CallOutcome.ok "s") "demo" "sid-1" "CREATE" 1800
      [] none none pollStepDescribeRaises [] "X" none).2.2.2.2.1 (by decide) rfl
  · exact (deploy_error_propagation_amended false "Throttling" "s"
      (CallOutcome.ok "s") (CallOutcome.ok "s") "demo" "sid-1" "CREATE" 1800
      [] none none pollStepEventsRaises [] "CREATE_IN_PROGRESS" none).2.2.2.2.2
      (by decide) rfl rfl

/-- Claim C3: app.py line 11 imports delete_bedrock_flow_stack from
my_tools, which defines no such name, so loading app.py raises ImportError
before the HTTP application or any endpoint or tool becomes callable. -/
theorem app_import_of_missing_name_fails :
    "delete_bedrock_flow_stack" ∈ appImportsFromMyTools
  ∧ "delete_bedrock_flow_stack" ∉ myToolsModuleNames
  ∧ fromImportSucceeds myToolsModuleNames appImportsFromMyTools = false
  ∧ appModuleLoad = AppModuleLoad.importError :=
  ⟨by decide, by decide, by decide, by decide⟩

end AwsAgent
